import Mathlib

/-!
Shallow embedding of the UPS-Monitor core (src/src-tauri/src/lib.rs).

Conventions of the embedding:
* Rust u64 values are modelled as Nat (no u64 arithmetic in the embedded code
  ever nears 2^64: times are epoch milliseconds, delays are clamped minutes).
* Rust f64 values are modelled as exact rationals; decimal literals such as
  26.8 denote the exact decimal value.  No claim depends on IEEE rounding of
  the sub-ulp error of these computations.
* Rust strings in the packet decoder are modelled as lists of characters so
  that every definition is executable by the kernel.
* External side effects (event emission, notifications, popups, sound
  playback starts, system commands) are recorded in an output trace.
-/

/-- MAX_EVENTS bound from lib.rs line 25. -/
def MAX_EVENTS : Nat := 1000

/-- Battery-low shutdown delay constant from lib.rs line 27. -/
def BATTERY_LOW_SHUTDOWN_DELAY_MINUTES : Nat := 5

/-- Battery-critical shutdown delay constant from lib.rs line 28. -/
def BATTERY_CRITICAL_SHUTDOWN_DELAY_MINUTES : Nat := 1

/-- Per-alert configuration (struct AlertConfig). -/
structure AlertConfig where
  play_sound : Bool
  show_popup : Bool
  sound_repeats : Nat
deriving Repr, DecidableEq

/-- struct ShutdownOnAcFault. -/
structure ShutdownOnAcFault where
  enabled : Bool
  delay_minutes : Nat
deriving Repr, DecidableEq

/-- struct ShutdownToggle. -/
structure ShutdownToggle where
  enabled : Bool
deriving Repr, DecidableEq

/-- struct ShutdownPCSettings. -/
structure ShutdownPCSettings where
  on_ac_fault : ShutdownOnAcFault
  on_battery_low : ShutdownToggle
  on_battery_critical : ShutdownToggle
  auto_save_files : Bool
  shutdown_command : String
  action : String
deriving Repr, DecidableEq

/-- struct UpsControlSettings. -/
structure UpsControlSettings where
  shutdown_ups_after_pc : Bool
  ups_shutdown_delay : Nat
deriving Repr, DecidableEq

/-- struct AlertSettings. -/
structure AlertSettings where
  ac_fault : AlertConfig
  battery_low : AlertConfig
  battery_critical : AlertConfig
deriving Repr, DecidableEq

/-- struct AppSettings. -/
structure AppSettings where
  start_with_windows : Bool
  start_minimized : Bool
  monitor_only_mode : Bool
  polling_interval : Nat
  enable_notifications : Bool
  alerts : AlertSettings
  shutdown_pc : ShutdownPCSettings
  ups_control : UpsControlSettings
  save_history : Bool
  history_interval : Nat
  low_battery_threshold : Nat
  critical_battery_threshold : Nat
  custom_sounds_path : Option String
deriving Repr, DecidableEq

/-- impl Default for AppSettings (lib.rs lines 97-144). -/
def default_settings : AppSettings where
  start_with_windows := false
  start_minimized := false
  monitor_only_mode := false
  polling_interval := 1000
  enable_notifications := true
  alerts :=
    { ac_fault := { play_sound := true, show_popup := true, sound_repeats := 3 }
      battery_low := { play_sound := true, show_popup := true, sound_repeats := 5 }
      battery_critical := { play_sound := true, show_popup := true, sound_repeats := 10 } }
  shutdown_pc :=
    { on_ac_fault := { enabled := true, delay_minutes := 18 }
      on_battery_low := { enabled := false }
      on_battery_critical := { enabled := true }
      auto_save_files := true
      shutdown_command := ""
      action := "shutdown" }
  ups_control := { shutdown_ups_after_pc := true, ups_shutdown_delay := 2 }
  save_history := true
  history_interval := 300
  low_battery_threshold := 20
  critical_battery_threshold := 10
  custom_sounds_path := none

/-- fn clamp_u64 (lib.rs lines 550-555): zero selects the fallback, otherwise
the value is clamped into the inclusive range. -/
def clamp_u64 (value lo hi fallback : Nat) : Nat :=
  if value = 0 then fallback else min (max value lo) hi

/-- AppSettings::apply_monitor_only_defaults (lib.rs lines 147-164). -/
def AppSettings.apply_monitor_only_defaults (s : AppSettings) : AppSettings :=
  { s with
    enable_notifications := false
    alerts.ac_fault.play_sound := false
    alerts.ac_fault.show_popup := false
    alerts.battery_low.play_sound := false
    alerts.battery_low.show_popup := false
    alerts.battery_critical.play_sound := false
    alerts.battery_critical.show_popup := false
    shutdown_pc.on_ac_fault.enabled := false
    shutdown_pc.on_battery_low.enabled := false
    shutdown_pc.on_battery_critical.enabled := false
    shutdown_pc.auto_save_files := false
    shutdown_pc.shutdown_command := ""
    ups_control.shutdown_ups_after_pc := false
    save_history := false }

/-- AppSettings::normalize (lib.rs lines 166-194). -/
def AppSettings.normalize (s₀ : AppSettings) : AppSettings :=
  let s := { s₀ with polling_interval := clamp_u64 s₀.polling_interval 500 10000 1000 }
  let s := { s with history_interval := clamp_u64 s.history_interval 60 3600 300 }
  let s := { s with low_battery_threshold := clamp_u64 s.low_battery_threshold 5 50 20 }
  let crit := min (clamp_u64 s.critical_battery_threshold 5 30 10) s.low_battery_threshold
  let s := { s with critical_battery_threshold := crit }
  let ac_rep := clamp_u64 s.alerts.ac_fault.sound_repeats 1 30 3
  let s := { s with alerts.ac_fault.sound_repeats := ac_rep }
  let low_rep := clamp_u64 s.alerts.battery_low.sound_repeats 1 30 5
  let s := { s with alerts.battery_low.sound_repeats := low_rep }
  let crit_rep := clamp_u64 s.alerts.battery_critical.sound_repeats 1 30 10
  let s := { s with alerts.battery_critical.sound_repeats := crit_rep }
  let ac_delay := clamp_u64 s.shutdown_pc.on_ac_fault.delay_minutes 1 60 18
  let s := { s with shutdown_pc.on_ac_fault.delay_minutes := ac_delay }
  let ups_delay := clamp_u64 s.ups_control.ups_shutdown_delay 1 10 2
  let s := { s with ups_control.ups_shutdown_delay := ups_delay }
  let s := if s.shutdown_pc.action ≠ "shutdown" ∧ s.shutdown_pc.action ≠ "sleep" then
      { s with shutdown_pc.action := "shutdown" } else s
  if s.monitor_only_mode then s.apply_monitor_only_defaults else s

/-- struct UpsStatusFlags. -/
structure UpsStatusFlags where
  raw : String
  utility_fail : Bool
  battery_low : Bool
  bypass_active : Bool
  ups_failed : Bool
  ups_is_standby : Bool
  test_in_progress : Bool
  shutdown_active : Bool
  beeper_on : Bool
deriving Repr, DecidableEq

/-- struct UpsData.  The Rust field r#type is named r_type here. -/
structure UpsData where
  r_type : String
  input_voltage : ℚ
  fault_voltage : ℚ
  output_voltage : ℚ
  load_percent : Nat
  frequency : ℚ
  battery_voltage : ℚ
  temperature : ℚ
  battery_percent : Nat
  estimated_runtime : Nat
  timestamp : String
  status : UpsStatusFlags
deriving Repr, DecidableEq

/-- enum DecodedPacket. -/
inductive DecodedPacket where
  | Status (data : UpsData)
  | Version (firmware : String)
deriving Repr, DecidableEq

/-- fn calculate_battery_percent (lib.rs lines 1233-1247), with f64 arithmetic
modelled as exact rational arithmetic; Rust f64::round on the non-negative
values reached here agrees with Mathlib round. -/
def calculate_battery_percent (voltage : ℚ) : Nat :=
  if voltage ≤ (21.0 : ℚ) then 0
  else if (26.8 : ℚ) ≤ voltage then 100
  else (min 100 (max 0 (round ((voltage - 21.0) / ((26.8 : ℚ) - 21.0) * 100)))).toNat

/-- fn estimate_runtime (lib.rs lines 1249-1253), with f64 modelled as ℚ. -/
def estimate_runtime (battery_percent load_percent : Nat) : Nat :=
  let base_runtime_minutes : ℚ := 15
  let load_factor : ℚ := (max load_percent 10 : Nat) / 100
  (round ((battery_percent : ℚ) / 100 * (base_runtime_minutes / load_factor))).toNat

/-- Digits of a numeral, most significant first, folded to its value. -/
def digits_val (cs : List Char) : Nat :=
  cs.foldl (fun acc c => acc * 10 + (c.toNat - 48)) 0

/-- fn parse_f64 (lib.rs lines 1221-1223): Rust str::parse with unwrap_or(0.0),
modelled for plain decimal literals with optional sign.  Exponent and
inf/nan spellings, which the UPS frame format never produces, are not
modelled and fall back to 0 like any other unparsable text; parsed values
are exact rationals rather than rounded f64. -/
def parse_f64 (s : List Char) : ℚ :=
  let signed : ℚ × List Char :=
    match s with
    | '-' :: rest => (-1, rest)
    | '+' :: rest => (1, rest)
    | _ => (1, s)
  let body := signed.2
  let int_part := body.takeWhile (·.isDigit)
  let rest := body.drop int_part.length
  match rest with
  | [] => if int_part = [] then 0 else signed.1 * digits_val int_part
  | '.' :: frac =>
    if frac.all (·.isDigit) ∧ (int_part ≠ [] ∨ frac ≠ []) then
      signed.1 * ((digits_val int_part : ℚ) + (digits_val frac : ℚ) / (10 ^ frac.length))
    else 0
  | _ => 0

/-- fn parse_u64 (lib.rs lines 1225-1227): Rust str::parse::<u64> with
unwrap_or(0); an optional leading plus sign is accepted. -/
def parse_u64 (s : List Char) : Nat :=
  let body := match s with
    | '+' :: rest => rest
    | _ => s
  if body ≠ [] ∧ body.all (·.isDigit) then digits_val body else 0

/-- fn status_bit (lib.rs lines 1229-1231). -/
def status_bit (bits : List Char) (index : Nat) : Bool :=
  ((bits.get? index).map (fun ch => ch == '1')).getD false

/-- str::trim on a character list (Unicode whitespace restricted to the
ASCII whitespace the decoder can produce). -/
def trim_chars (cs : List Char) : List Char :=
  ((cs.dropWhile (·.isWhitespace)).reverse.dropWhile (·.isWhitespace)).reverse

/-- str::split_whitespace on a character list: maximal runs of
non-whitespace characters, in order. -/
def split_ws_aux : List Char → List Char → List (List Char)
  | [], acc => if acc = [] then [] else [acc.reverse]
  | c :: rest, acc =>
    if c.isWhitespace then
      if acc = [] then split_ws_aux rest []
      else acc.reverse :: split_ws_aux rest []
    else split_ws_aux rest (c :: acc)

/-- str::split_whitespace entry point. -/
def split_ws (cs : List Char) : List (List Char) :=
  split_ws_aux cs []

/-- fn parse_ups_string (lib.rs lines 1169-1219).  The Rust function also
reads the wall clock for the snapshot timestamp; that clock value is the
explicit now_iso argument here. -/
def parse_ups_string (now_iso : String) (input : List Char) : Option DecodedPacket :=
  if input.head? = some '(' then
    let parts := split_ws (input.dropWhile (· = '('))
    if parts.length < 8 then none
    else
      let status_bits := parts.getD 7 []
      let battery_voltage := parse_f64 (parts.getD 5 [])
      let load_percent := parse_u64 (parts.getD 3 [])
      let battery_percent := calculate_battery_percent battery_voltage
      some (.Status
        { r_type := "STATUS"
          input_voltage := parse_f64 (parts.getD 0 [])
          fault_voltage := parse_f64 (parts.getD 1 [])
          output_voltage := parse_f64 (parts.getD 2 [])
          load_percent := load_percent
          frequency := parse_f64 (parts.getD 4 [])
          battery_voltage := battery_voltage
          temperature := parse_f64 (parts.getD 6 [])
          battery_percent := battery_percent
          estimated_runtime := estimate_runtime battery_percent load_percent
          timestamp := now_iso
          status :=
            { raw := String.mk status_bits
              utility_fail := status_bit status_bits 0
              battery_low := status_bit status_bits 1
              bypass_active := status_bit status_bits 2
              ups_failed := status_bit status_bits 3
              ups_is_standby := status_bit status_bits 4
              test_in_progress := status_bit status_bits 5
              shutdown_active := status_bit status_bits 6
              beeper_on := status_bit status_bits 7 } })
  else if input.contains 'V' ∧ (input.contains '#' ∨ input.contains 'V') then
    some (.Version (String.mk (trim_chars (input.filter (· ≠ '#')))))
  else none

/-- fn decode_packet (lib.rs lines 1144-1167): strip a report-id byte when
more than one byte is present, truncate at the first carriage return, keep
printable ASCII, trim, then parse. -/
def decode_packet (now_iso : String) (raw_data : List Nat) : Option DecodedPacket :=
  if raw_data = [] then none
  else
    let data_bytes := if raw_data.length > 1 then raw_data.drop 1 else raw_data
    let content_end := (data_bytes.findIdx? (· = 13)).getD data_bytes.length
    let ascii := ((data_bytes.take content_end).filter
        (fun b => 32 ≤ b ∧ b ≤ 126)).map Char.ofNat
    parse_ups_string now_iso (trim_chars ascii)

/-- enum AlertKind. -/
inductive AlertKind where
  | AcFault
  | BatteryLow
  | BatteryCritical
deriving Repr, DecidableEq

/-- AlertKind::event_name (lib.rs lines 363-369). -/
def AlertKind.event_name : AlertKind → String
  | .AcFault => "Fallo de energia"
  | .BatteryLow => "Bateria baja"
  | .BatteryCritical => "Bateria critica"

/-- AlertKind::alert_type (lib.rs lines 371-377). -/
def AlertKind.alert_type : AlertKind → String
  | .AcFault => "warning"
  | .BatteryLow => "battery"
  | .BatteryCritical => "critical"

/-- struct HistoryEvent. -/
structure HistoryEvent where
  id : Nat
  time : String
  classification : String
  name : String
  remarks : String
deriving Repr, DecidableEq

/-- The system command chosen by fn execute_shutdown_command
(lib.rs lines 848-874). -/
inductive SystemCmd where
  | customCmd (cmd : String)
  | sleepCmd
  | shutdownCmd
deriving Repr, DecidableEq

/-- Externally observable side effects of the monitor core, in program
order.  Notification/popup/alert payload strings are carried verbatim;
the shutdown-scheduled payload is abstracted to its minutes field. -/
inductive Output where
  | logEvent (classification name remarks : String)
  | notify (title message : String)
  | urgentAlert (title message alertType : String)
  | forcedPopup (title message alertType : String)
  | soundStart (repeats generation : Nat)
  | shutdownScheduled (minutes : Nat)
  | shutdownCancelled
  | upsData
  | emitError (message : String)
  | systemAction (cmd : SystemCmd)
  | alertTransition (kind : AlertKind)
deriving Repr, DecidableEq

/-- The mutable fields of AppState (lib.rs lines 389-414) touched by the
telemetry state machine and the shutdown scheduler.  Connection-manager
fields (is_connected, has_emitted_disconnected, device_info) and the
telemetry-history fields (data_history, last_data_save_ms), which no claim
depends on, are not modelled; settings are passed separately, as the Rust
code clones them at each entry point. -/
structure MonitorState where
  is_on_battery : Bool
  was_battery_low : Bool
  was_battery_critical : Bool
  battery_start_ms : Option Nat
  scheduled_shutdown_at_ms : Option Nat
  scheduled_shutdown_reason : Option String
  last_error : Option String
  sound_generation : Nat
  last_forced_popup_ms : Nat
  events : List HistoryEvent
  last_status : Option UpsData
deriving Repr, DecidableEq

/-- The fresh AppState built by AppState::new (lib.rs lines 441-466),
with the persisted events list taken as empty. -/
def initial_state : MonitorState where
  is_on_battery := false
  was_battery_low := false
  was_battery_critical := false
  battery_start_ms := none
  scheduled_shutdown_at_ms := none
  scheduled_shutdown_reason := none
  last_error := none
  sound_generation := 0
  last_forced_popup_ms := 0
  events := []
  last_status := none

/-- Ambient inputs of one entry into the core: the wall clock (now_millis
and now_iso), the main-window state read by should_force_popup, and the
outcome of spawning the system shutdown command (none means the spawn
succeeded, some msg the formatted spawn error). -/
structure Env where
  now_ms : Nat
  now_iso : String
  main_window_visible_focused : Bool
  shutdown_command_error : Option String
deriving Repr, DecidableEq

/-- Result of a core action: the new state, the emitted outputs, and the
returned boolean for the functions that return one (false otherwise). -/
structure Act where
  st : MonitorState
  out : List Output
  flag : Bool
deriving Repr, DecidableEq

/-- The bounded insert performed by AppState::log_event on the events list
(lib.rs lines 489-502): push front, truncate to MAX_EVENTS when above it. -/
def insert_event (events : List HistoryEvent) (e : HistoryEvent) : List HistoryEvent :=
  let events' := e :: events
  if events'.length > MAX_EVENTS then events'.take MAX_EVENTS else events'

/-- AppState::log_event (lib.rs lines 484-505): suppressed entirely in
monitor-only mode, otherwise records and reports the event. -/
def log_event (env : Env) (settings : AppSettings) (st : MonitorState)
    (classification name remarks : String) : Act :=
  if settings.monitor_only_mode then ⟨st, [], false⟩
  else
    let e : HistoryEvent := { id := env.now_ms, time := env.now_iso, classification := classification, name := name, remarks := remarks }
    ⟨{ st with events := insert_event st.events e }, [.logEvent classification name remarks], false⟩

/-- fn emit_error_once (lib.rs lines 629-637): deduplicates against the last
reported message. -/
def emit_error_once (st : MonitorState) (message : String) : Act :=
  if st.last_error = some message then ⟨st, [], false⟩
  else ⟨{ st with last_error := some message }, [.emitError message], false⟩

/-- fn should_force_popup (lib.rs lines 758-775): a 6-second throttle, and
never while the main window is both visible and focused. -/
def should_force_popup (env : Env) (st : MonitorState) : Bool × MonitorState :=
  if env.now_ms - st.last_forced_popup_ms < 6000 then (false, st)
  else if env.main_window_visible_focused then (false, st)
  else (true, { st with last_forced_popup_ms := env.now_ms })

/-- fn cancel_scheduled_shutdown (lib.rs lines 807-814): clears deadline and
reason, optionally emits the cancellation event, returns whether a deadline
was pending. -/
def cancel_scheduled_shutdown (st : MonitorState) (emit_event : Bool) : Act :=
  let had_schedule := st.scheduled_shutdown_at_ms.isSome
  ⟨{ st with scheduled_shutdown_at_ms := none, scheduled_shutdown_reason := none },
    if had_schedule && emit_event then [.shutdownCancelled] else [],
    had_schedule⟩

/-- fn schedule_shutdown_after_minutes (lib.rs lines 816-846): clamp the
delay to [1,120] minutes, replace the pending deadline only when none
exists or the new one is strictly earlier, and always return true. -/
def schedule_shutdown_after_minutes (env : Env) (st : MonitorState)
    (delay_minutes : Nat) (reason : String) : Act :=
  let safe_minutes := min (max delay_minutes 1) 120
  let target_ms := env.now_ms + safe_minutes * 60 * 1000
  let should_replace : Bool :=
    match st.scheduled_shutdown_at_ms with
    | some existing => target_ms < existing
    | none => true
  if should_replace then
    ⟨{ st with scheduled_shutdown_at_ms := some target_ms, scheduled_shutdown_reason := some reason }, [.shutdownScheduled safe_minutes], true⟩
  else ⟨st, [], true⟩

/-- fn execute_shutdown_command (lib.rs lines 848-874): the command chosen,
before any spawn error. -/
def execute_shutdown_command (settings : AppSettings) : SystemCmd :=
  if settings.shutdown_pc.shutdown_command.trim ≠ "" then
    .customCmd settings.shutdown_pc.shutdown_command.trim
  else if settings.shutdown_pc.action = "sleep" then .sleepCmd
  else .shutdownCmd

/-- The due branch of fn process_pending_shutdown (lib.rs lines 892-908):
read the stored reason, clear the schedule without a cancellation event,
notify/popup/log, attempt the configured system action, and report a spawn
error once. -/
def process_due_shutdown (env : Env) (settings : AppSettings)
    (st : MonitorState) : Act :=
  let reason := st.scheduled_shutdown_reason.getD "shutdown-scheduled"
  let c := cancel_scheduled_shutdown st false
  let title := "Apagado de seguridad"
  let message := "Ejecutando accion configurada (" ++ reason ++ ")"
  let fp := should_force_popup env c.st
  let popup_out := if fp.1 then [Output.forcedPopup title message "critical"] else []
  let le := log_event env settings fp.2 "Critical Event" "Shutdown execution" reason
  let err : Act :=
    match env.shutdown_command_error with
    | some e => emit_error_once le.st e
    | none => ⟨le.st, [], false⟩
  ⟨err.st,
    c.out ++ [.notify title message] ++ popup_out
      ++ [.urgentAlert title message "critical"] ++ le.out
      ++ [.systemAction (execute_shutdown_command settings)] ++ err.out,
    false⟩

/-- fn process_pending_shutdown (lib.rs lines 876-909). -/
def process_pending_shutdown (env : Env) (settings : AppSettings)
    (st : MonitorState) : Act :=
  if settings.monitor_only_mode then ⟨st, [], false⟩
  else
    let is_due : Bool :=
      match st.scheduled_shutdown_at_ms with
      | some ts => env.now_ms ≥ ts
      | none => false
    if is_due then process_due_shutdown env settings st
    else ⟨st, [], false⟩

/-- fn alert_config_for_kind (lib.rs lines 643-649). -/
def alert_config_for_kind (settings : AppSettings) (kind : AlertKind) : AlertConfig :=
  match kind with
  | .AcFault => settings.alerts.ac_fault
  | .BatteryLow => settings.alerts.battery_low
  | .BatteryCritical => settings.alerts.battery_critical

/-- One decimal digit rendering used by the alert message; approximates the
Rust formatting of f64 with one fractional digit.  No claim depends on the
exact digits. -/
def format_one_decimal (q : ℚ) : String :=
  let scaled := round (q * 10)
  toString (scaled / 10) ++ "." ++ toString (scaled % 10).natAbs

/-- The human-readable alert message built in handle_alert_transition
(lib.rs lines 924-927). -/
def alert_message (status : UpsData) : String :=
  "Entrada " ++ format_one_decimal status.input_voltage ++ "V · Bateria "
    ++ toString status.battery_percent ++ "% · Carga "
    ++ toString status.load_percent ++ "%"

/-- fn play_sound_with_generation (lib.rs lines 692-736): allocates the next
generation token and starts the playback task with the repeat count clamped
to [1,30]; only the start of playback is observable here. -/
def play_sound_with_generation (st : MonitorState) (repeats : Nat) :
    MonitorState × List Output :=
  let generation := st.sound_generation + 1
  ({ st with sound_generation := generation },
    [.soundStart (min (max repeats 1) 30) generation])

/-- fn handle_alert_transition (lib.rs lines 911-972). -/
def handle_alert_transition (env : Env) (settings : AppSettings)
    (st : MonitorState) (kind : AlertKind) (status : UpsData) : Act :=
  if settings.monitor_only_mode then ⟨st, [], false⟩
  else
    let config := alert_config_for_kind settings kind
    let title := kind.event_name
    let message := alert_message status
    let notify_out := if settings.enable_notifications && config.show_popup then
        [Output.notify title message] else []
    let popup : MonitorState × List Output :=
      if config.show_popup then
        let fp := should_force_popup env st
        (fp.2, [Output.urgentAlert title message kind.alert_type]
          ++ (if fp.1 then [Output.forcedPopup title message kind.alert_type] else []))
      else (st, [])
    let sound : MonitorState × List Output :=
      if config.play_sound then play_sound_with_generation popup.1 config.sound_repeats
      else (popup.1, [])
    let sched : Act :=
      match kind with
      | .AcFault =>
        if settings.shutdown_pc.on_ac_fault.enabled then
          schedule_shutdown_after_minutes env sound.1
            settings.shutdown_pc.on_ac_fault.delay_minutes "ac-fault"
        else ⟨sound.1, [], false⟩
      | .BatteryLow =>
        if settings.shutdown_pc.on_battery_low.enabled then
          schedule_shutdown_after_minutes env sound.1
            BATTERY_LOW_SHUTDOWN_DELAY_MINUTES "battery-low"
        else ⟨sound.1, [], false⟩
      | .BatteryCritical =>
        if settings.shutdown_pc.on_battery_critical.enabled then
          schedule_shutdown_after_minutes env sound.1
            BATTERY_CRITICAL_SHUTDOWN_DELAY_MINUTES "battery-critical"
        else ⟨sound.1, [], false⟩
    ⟨sched.st, notify_out ++ popup.2 ++ sound.2 ++ sched.out, false⟩

/-- fn handle_status_packet (lib.rs lines 1070-1142).  The flag of each
intermediate Act mirrors the ac_fault_triggered / battery_low_triggered /
battery_critical_triggered locals; an alertTransition output marks each
call into handle_alert_transition.  The telemetry-history append
(log_data_point_if_needed) is disk bookkeeping outside the modelled state. -/
def handle_status_packet (env : Env) (settings : AppSettings)
    (st : MonitorState) (status : UpsData) : MonitorState × List Output :=
  let was_on_battery := st.is_on_battery
  let is_on_battery := status.status.utility_fail
  let ac : Act :=
    if is_on_battery && !was_on_battery then
      let le := log_event env settings { st with battery_start_ms := some env.now_ms }
        "Critical Event" "AC Fault" "AC Fault"
      ⟨le.st, le.out, true⟩
    else ⟨st, [], false⟩
  let cleared : Act :=
    if !is_on_battery && was_on_battery then
      let stc := { ac.st with battery_start_ms := none, was_battery_low := false, was_battery_critical := false }
      let le := log_event env settings stc "General Event" "Normal AC value" "Normal AC value"
      let cr := cancel_scheduled_shutdown le.st true
      ⟨{ cr.st with sound_generation := cr.st.sound_generation + 1 }, le.out ++ cr.out, false⟩
    else ⟨ac.st, [], false⟩
  let is_low_battery := is_on_battery
    && (status.status.battery_low || status.battery_percent ≤ settings.low_battery_threshold)
  let is_critical_battery := is_on_battery
    && status.battery_percent ≤ settings.critical_battery_threshold
  let low : Act :=
    let r : Act :=
      if is_low_battery && !is_critical_battery && !cleared.st.was_battery_low then
        let le := log_event env settings cleared.st "Critical Event" "Battery Low" "Battery Low"
        ⟨{ le.st with was_battery_low := true }, le.out, true⟩
      else ⟨cleared.st, [], false⟩
    if !is_low_battery then ⟨{ r.st with was_battery_low := false }, r.out, r.flag⟩ else r
  let crit : Act :=
    let r : Act :=
      if is_critical_battery && !low.st.was_battery_critical then
        let le := log_event env settings low.st "Critical Event" "Battery Critical" "Battery Critical"
        ⟨{ le.st with was_battery_critical := true }, le.out, true⟩
      else ⟨low.st, [], false⟩
    if !is_critical_battery then ⟨{ r.st with was_battery_critical := false }, r.out, r.flag⟩ else r
  let d1 : Act :=
    if ac.flag then
      let h := handle_alert_transition env settings crit.st .AcFault status
      ⟨h.st, Output.alertTransition .AcFault :: h.out, true⟩
    else ⟨crit.st, [], false⟩
  let d2 : Act :=
    if low.flag then
      let h := handle_alert_transition env settings d1.st .BatteryLow status
      ⟨h.st, Output.alertTransition .BatteryLow :: h.out, true⟩
    else ⟨d1.st, [], false⟩
  let d3 : Act :=
    if crit.flag then
      let h := handle_alert_transition env settings d2.st .BatteryCritical status
      ⟨h.st, Output.alertTransition .BatteryCritical :: h.out, true⟩
    else ⟨d2.st, [], false⟩
  let pp := process_pending_shutdown env settings d3.st
  ({ pp.st with is_on_battery := is_on_battery, last_status := some status },
    ac.out ++ cleared.out ++ low.out ++ crit.out ++ d1.out ++ d2.out ++ d3.out
      ++ pp.out ++ [Output.upsData])

/-- Sequential processing of a stream of decoded status packets, each with
its own ambient inputs, accumulating the emitted outputs. -/
def run_status_packets (settings : AppSettings) :
    List (Env × UpsData) → MonitorState → MonitorState × List Output
  | [], st => (st, [])
  | step :: rest, st =>
    let r := handle_status_packet step.1 settings st step.2
    let r2 := run_status_packets settings rest r.1
    (r2.1, r.2 ++ r2.2)

/-- Command trigger_shutdown (lib.rs lines 1511-1518): rejected in
monitor-only mode, otherwise defers to schedule_shutdown_after_minutes. -/
def trigger_shutdown (env : Env) (settings : AppSettings) (st : MonitorState)
    (minutes : Nat) : Act :=
  if settings.monitor_only_mode then ⟨st, [], false⟩
  else schedule_shutdown_after_minutes env st minutes "manual-trigger"

lemma round_le_of_le {a b : ℚ} (h : a ≤ b) : round a ≤ round b := by
  rw [round_eq, round_eq]
  exact Int.floor_mono (by linarith)

lemma calculate_battery_percent_le_100 (v : ℚ) : calculate_battery_percent v ≤ 100 := by
  unfold calculate_battery_percent
  split
  · exact Nat.zero_le _
  · split
    · exact le_refl _
    · rw [Int.toNat_le]
      exact le_trans (min_le_left _ _) (by norm_num)

/-- C5: battery percent from battery voltage is 0 at or below 21.0 V, 100 at
or above 26.8 V, 50 at 23.9 V, always at most 100 (it is a Nat, hence in
[0,100]), and monotone non-decreasing in the voltage. -/
theorem claim_C5_battery_percent :
    (∀ v : ℚ, v ≤ 21 → calculate_battery_percent v = 0) ∧
    (∀ v : ℚ, 26.8 ≤ v → calculate_battery_percent v = 100) ∧
    calculate_battery_percent 23.9 = 50 ∧
    (∀ v : ℚ, calculate_battery_percent v ≤ 100) ∧
    Monotone calculate_battery_percent := by
  refine ⟨?_, ?_, ?_, calculate_battery_percent_le_100, ?_⟩
  · intro v hv
    unfold calculate_battery_percent
    rw [if_pos (by norm_num [hv])]
  · intro v hv
    unfold calculate_battery_percent
    rw [if_neg (by norm_num; linarith), if_pos (by linarith)]
  · unfold calculate_battery_percent
    rw [if_neg (by norm_num), if_neg (by norm_num)]
    rw [show ((23.9 : ℚ) - 21.0) / (26.8 - 21.0) * 100 = ((50 : ℤ) : ℚ) by norm_num]
    rw [round_intCast]
    rfl
  · intro a b hab
    unfold calculate_battery_percent
    by_cases ha1 : a ≤ (21.0 : ℚ)
    · rw [if_pos ha1]
      exact Nat.zero_le _
    · have hb1 : ¬ b ≤ (21.0 : ℚ) := fun h => ha1 (le_trans hab h)
      rw [if_neg ha1, if_neg hb1]
      by_cases ha2 : (26.8 : ℚ) ≤ a
      · rw [if_pos ha2, if_pos (le_trans ha2 hab)]
      · rw [if_neg ha2]
        by_cases hb2 : (26.8 : ℚ) ≤ b
        · rw [if_pos hb2]
          rw [Int.toNat_le]
          exact le_trans (min_le_left _ _) (by norm_num)
        · rw [if_neg hb2]
          apply Int.toNat_le_toNat
          apply min_le_min (le_refl _)
          apply max_le_max (le_refl _)
          apply round_le_of_le
          apply mul_le_mul_of_nonneg_right _ (by norm_num)
          rw [div_le_div_iff_of_pos_right (by norm_num)]
          exact sub_le_sub_right hab _

theorem claim_C5_battery_percent_witness :
    ((20.5 : ℚ) ≤ 21 ∧ calculate_battery_percent 20.5 = 0) ∧
    ((26.8 : ℚ) ≤ 27.1 ∧ calculate_battery_percent 27.1 = 100) ∧
    ((22 : ℚ) ≤ 25 ∧ calculate_battery_percent 22 ≤ calculate_battery_percent 25) := by
  refine ⟨⟨by norm_num, claim_C5_battery_percent.1 20.5 (by norm_num)⟩,
    ⟨by norm_num, claim_C5_battery_percent.2.1 27.1 (by norm_num)⟩,
    ⟨by norm_num, claim_C5_battery_percent.2.2.2.2 (by norm_num)⟩⟩

lemma insert_event_eq_take (events : List HistoryEvent) (e : HistoryEvent) :
    insert_event events e = (e :: events).take MAX_EVENTS := by
  simp only [insert_event]
  split
  · rfl
  · exact (List.take_of_length_le (by omega)).symm

lemma insert_event_length_le (events : List HistoryEvent) (e : HistoryEvent) :
    (insert_event events e).length ≤ MAX_EVENTS := by
  rw [insert_event_eq_take]
  simp only [List.length_take]
  omega

lemma take_append_take_eq (l m : List HistoryEvent) :
    (l ++ m.take MAX_EVENTS).take MAX_EVENTS = (l ++ m).take MAX_EVENTS := by
  rw [List.take_append_eq_append_take, List.take_append_eq_append_take, List.take_take]
  congr 1
  congr 1
  omega

lemma foldl_insert_event (es : List HistoryEvent) :
    ∀ init : List HistoryEvent, init.length ≤ MAX_EVENTS →
      es.foldl insert_event init = (es.reverse ++ init).take MAX_EVENTS := by
  induction es with
  | nil =>
    intro init h
    simp [List.take_of_length_le h]
  | cons e rest ih =>
    intro init _
    rw [List.foldl_cons, ih _ (insert_event_length_le init e)]
    rw [insert_event_eq_take, List.reverse_cons, List.append_assoc]
    exact take_append_take_eq _ (e :: init)

/-- C9: the event log is bounded and ordered: any sequence of insertions
starting from the empty log yields the most recent MAX_EVENTS events,
newest first, hence at most 1000 entries; inserting into a full log of
1000 drops exactly the oldest entry and leaves 1000. -/
theorem claim_C9_event_log_bounds :
    (∀ es : List HistoryEvent, es.foldl insert_event [] = es.reverse.take MAX_EVENTS) ∧
    (∀ es : List HistoryEvent, (es.foldl insert_event []).length ≤ MAX_EVENTS) ∧
    (∀ (events : List HistoryEvent) (e : HistoryEvent), events.length = MAX_EVENTS →
      insert_event events e = e :: events.dropLast ∧
      (insert_event events e).length = MAX_EVENTS) := by
  have h1 : ∀ es : List HistoryEvent, es.foldl insert_event [] = es.reverse.take MAX_EVENTS := by
    intro es
    rw [foldl_insert_event es [] (by simp), List.append_nil]
  refine ⟨h1, ?_, ?_⟩
  · intro es
    rw [h1]
    simp only [List.length_take]
    omega
  · intro events e h
    have drop : events.dropLast = events.take 999 := by
      rw [List.dropLast_eq_take, h]
      rfl
    have step : insert_event events e = e :: events.dropLast := by
      rw [insert_event_eq_take, drop]
      rfl
    refine ⟨step, ?_⟩
    rw [step, drop]
    simp only [List.length_cons, List.length_take]
    simp only [MAX_EVENTS] at h ⊢
    omega

/-- Concrete event used by witnesses. -/
def sample_event : HistoryEvent where
  id := 1
  time := "1970-01-01T00:00:01Z"
  classification := "General Event"
  name := "UPS connected"
  remarks := "UPS connected"

theorem claim_C9_event_log_bounds_witness :
    (List.replicate MAX_EVENTS sample_event).length = MAX_EVENTS ∧
    insert_event (List.replicate MAX_EVENTS sample_event) sample_event =
      sample_event :: (List.replicate MAX_EVENTS sample_event).dropLast ∧
    (insert_event (List.replicate MAX_EVENTS sample_event) sample_event).length = MAX_EVENTS := by
  have h := claim_C9_event_log_bounds.2.2 (List.replicate MAX_EVENTS sample_event)
    sample_event (by simp)
  exact ⟨by simp, h.1, h.2⟩

/-- The clamped absolute deadline computed by schedule_shutdown_after_minutes
for a request of delay_minutes at env.now_ms. -/
def clamped_target_ms (env : Env) (delay_minutes : Nat) : Nat :=
  env.now_ms + (min (max delay_minutes 1) 120) * 60 * 1000

/-- C1: a schedule request replaces the pending deadline exactly when none
exists or the clamped new deadline is strictly earlier, recording the new
reason on replacement and leaving deadline and reason untouched otherwise;
in particular, from an empty schedule, requesting 10 minutes then 2 minutes
makes the 2-minute deadline and its reason active, while requesting
2 minutes then 10 minutes leaves the 2-minute schedule entirely unchanged. -/
theorem claim_C1_earliest_wins :
    (∀ (env : Env) (st : MonitorState) (d : Nat) (r : String),
      (schedule_shutdown_after_minutes env st d r).st.scheduled_shutdown_at_ms =
        some (match st.scheduled_shutdown_at_ms with
          | none => clamped_target_ms env d
          | some e => if clamped_target_ms env d < e then clamped_target_ms env d else e) ∧
      (schedule_shutdown_after_minutes env st d r).st.scheduled_shutdown_reason =
        (match st.scheduled_shutdown_at_ms with
          | none => some r
          | some e => if clamped_target_ms env d < e then some r
              else st.scheduled_shutdown_reason)) ∧
    (∀ (env : Env) (r1 r2 : String),
      (schedule_shutdown_after_minutes env
          (schedule_shutdown_after_minutes env initial_state 10 r1).st 2 r2).st.scheduled_shutdown_at_ms
        = some (env.now_ms + 2 * 60 * 1000) ∧
      (schedule_shutdown_after_minutes env
          (schedule_shutdown_after_minutes env initial_state 10 r1).st 2 r2).st.scheduled_shutdown_reason
        = some r2 ∧
      (schedule_shutdown_after_minutes env
          (schedule_shutdown_after_minutes env initial_state 2 r1).st 10 r2).st
        = (schedule_shutdown_after_minutes env initial_state 2 r1).st) := by
  constructor
  · intro env st d r
    unfold schedule_shutdown_after_minutes clamped_target_ms
    rcases h : st.scheduled_shutdown_at_ms with _ | e
    · simp [h]
    · by_cases hy : env.now_ms + (min (max d 1) 120) * 60 * 1000 < e
      · simp [h, hy]
      · simp [h, hy]
  · intro env r1 r2
    have step1 : (schedule_shutdown_after_minutes env initial_state 10 r1).st =
        { initial_state with
          scheduled_shutdown_at_ms := some (env.now_ms + 10 * 60 * 1000),
          scheduled_shutdown_reason := some r1 } := by
      unfold schedule_shutdown_after_minutes
      simp [initial_state]
    have step1' : (schedule_shutdown_after_minutes env initial_state 2 r1).st =
        { initial_state with
          scheduled_shutdown_at_ms := some (env.now_ms + 2 * 60 * 1000),
          scheduled_shutdown_reason := some r1 } := by
      unfold schedule_shutdown_after_minutes
      simp [initial_state]
    refine ⟨?_, ?_, ?_⟩
    · rw [step1]
      unfold schedule_shutdown_after_minutes
      simp
    · rw [step1]
      unfold schedule_shutdown_after_minutes
      simp
    · rw [step1']
      unfold schedule_shutdown_after_minutes
      simp

/-- C7: cancel clears the deadline and the reason, returns true exactly when
a deadline was pending, and after cancellation a scheduler tick at any time
(in particular at or past any previously set deadline) performs no action
at all: no state change, no output, no system command. -/
theorem claim_C7_cancel_effective :
    ∀ (st : MonitorState) (emit_event : Bool),
      (cancel_scheduled_shutdown st emit_event).st.scheduled_shutdown_at_ms = none ∧
      (cancel_scheduled_shutdown st emit_event).st.scheduled_shutdown_reason = none ∧
      ((cancel_scheduled_shutdown st emit_event).flag = true ↔
        st.scheduled_shutdown_at_ms.isSome = true) ∧
      ∀ (env : Env) (settings : AppSettings),
        process_pending_shutdown env settings (cancel_scheduled_shutdown st emit_event).st =
          ⟨(cancel_scheduled_shutdown st emit_event).st, [], false⟩ := by
  intro st emit_event
  refine ⟨rfl, rfl, by simp [cancel_scheduled_shutdown], ?_⟩
  intro env settings
  unfold process_pending_shutdown
  split
  · rfl
  · simp [cancel_scheduled_shutdown]

/-- C10: a schedule request reports success even when it does not take
effect: schedule_shutdown_after_minutes returns true unconditionally, in
particular when an earlier pending deadline is kept and the state is left
unchanged; consequently the manual shutdown trigger returns true whenever
monitor-only mode is off. -/
theorem claim_C10_schedule_reports_true :
    (∀ (env : Env) (st : MonitorState) (d : Nat) (r : String),
      (schedule_shutdown_after_minutes env st d r).flag = true) ∧
    (∀ (env : Env) (st : MonitorState) (e d : Nat) (r : String),
      st.scheduled_shutdown_at_ms = some e →
      e ≤ clamped_target_ms env d →
      (schedule_shutdown_after_minutes env st d r).st = st ∧
      (schedule_shutdown_after_minutes env st d r).flag = true) ∧
    (∀ (env : Env) (settings : AppSettings) (st : MonitorState) (m : Nat),
      settings.monitor_only_mode = false →
      (trigger_shutdown env settings st m).flag = true) := by
  refine ⟨?_, ?_, ?_⟩
  · intro env st d r
    simp only [schedule_shutdown_after_minutes]
    split <;> rfl
  · intro env st e d r he hle
    simp only [schedule_shutdown_after_minutes]
    unfold clamped_target_ms at hle
    simp [he, Nat.not_lt.mpr hle]
  · intro env settings st m hmon
    unfold trigger_shutdown
    rw [if_neg (by simp [hmon])]
    simp only [schedule_shutdown_after_minutes]
    split <;> rfl

/-- Concrete ambient inputs used by witnesses. -/
def sample_env : Env where
  now_ms := 0
  now_iso := "1970-01-01T00:00:00Z"
  main_window_visible_focused := false
  shutdown_command_error := none

/-- State with a pending 1-minute deadline, used by witnesses. -/
def sample_scheduled_state : MonitorState :=
  { initial_state with
    scheduled_shutdown_at_ms := some 60000
    scheduled_shutdown_reason := some "ac-fault" }

theorem claim_C10_schedule_reports_true_witness :
    sample_scheduled_state.scheduled_shutdown_at_ms = some 60000 ∧
    60000 ≤ clamped_target_ms sample_env 10 ∧
    (schedule_shutdown_after_minutes sample_env sample_scheduled_state 10 "manual-trigger").st
      = sample_scheduled_state ∧
    (schedule_shutdown_after_minutes sample_env sample_scheduled_state 10 "manual-trigger").flag
      = true ∧
    default_settings.monitor_only_mode = false ∧
    (trigger_shutdown sample_env default_settings initial_state 5).flag = true := by
  have h := claim_C10_schedule_reports_true.2.1 sample_env sample_scheduled_state
    60000 10 "manual-trigger" rfl (by decide)
  have h2 := claim_C10_schedule_reports_true.2.2 sample_env default_settings
    initial_state 5 rfl
  exact ⟨rfl, by decide, h.1, h.2, rfl, h2⟩

/-- C6: normalization of any settings value with monitorOnlyMode set forces
every alert's sound and popup off, disables notifications, disables all
three shutdown-on-trigger flags, empties the custom shutdown command and
turns history saving off, regardless of the incoming field values. -/
theorem claim_C6_monitor_only_normalization (s : AppSettings)
    (h : s.monitor_only_mode = true) :
    s.normalize.enable_notifications = false ∧
    s.normalize.alerts.ac_fault.play_sound = false ∧
    s.normalize.alerts.ac_fault.show_popup = false ∧
    s.normalize.alerts.battery_low.play_sound = false ∧
    s.normalize.alerts.battery_low.show_popup = false ∧
    s.normalize.alerts.battery_critical.play_sound = false ∧
    s.normalize.alerts.battery_critical.show_popup = false ∧
    s.normalize.shutdown_pc.on_ac_fault.enabled = false ∧
    s.normalize.shutdown_pc.on_battery_low.enabled = false ∧
    s.normalize.shutdown_pc.on_battery_critical.enabled = false ∧
    s.normalize.shutdown_pc.shutdown_command = "" ∧
    s.normalize.save_history = false := by
  simp only [AppSettings.normalize]
  split
  · simp [AppSettings.apply_monitor_only_defaults, h]
  · simp [AppSettings.apply_monitor_only_defaults, h]

theorem claim_C6_monitor_only_normalization_witness :
    ({ default_settings with monitor_only_mode := true } : AppSettings).monitor_only_mode = true ∧
    ({ default_settings with monitor_only_mode := true } : AppSettings).normalize.enable_notifications = false ∧
    ({ default_settings with monitor_only_mode := true } : AppSettings).normalize.shutdown_pc.on_ac_fault.enabled = false ∧
    ({ default_settings with monitor_only_mode := true } : AppSettings).normalize.save_history = false := by
  have h := claim_C6_monitor_only_normalization
    { default_settings with monitor_only_mode := true } rfl
  exact ⟨rfl, h.1, h.2.2.2.2.2.2.2.1, h.2.2.2.2.2.2.2.2.2.2.2⟩

/-- Erase the clock-derived timestamp field of a decoded status snapshot. -/
def erase_timestamp : Option DecodedPacket → Option DecodedPacket
  | some (.Status d) => some (.Status { d with timestamp := "" })
  | other => other

/-- Timestamp of a decoded status snapshot, if any. -/
def decoded_timestamp : Option DecodedPacket → Option String
  | some (.Status d) => some d.timestamp
  | _ => none

/-- ASCII codes of a string, for building raw device buffers. -/
def ascii_codes (s : String) : List Nat :=
  s.data.map Char.toNat

/-- A well-formed status frame as read from the device: a report-id byte
followed by the ASCII status line. -/
def sample_packet_bytes : List Nat :=
  0 :: ascii_codes "(220.0 140.0 220.0 032 50.0 23.9 25.0 10000001"

/-- C2 counterexample: decode_packet is not independent of the current
time — the same bytes decoded at two different clock readings give two
different results, because the snapshot records the decode time in its
timestamp field (now_iso() in lib.rs line 1195). -/
theorem claim_C2_counterexample :
    decode_packet "2024-01-01T00:00:00Z" sample_packet_bytes ≠
      decode_packet "2024-01-01T00:00:01Z" sample_packet_bytes := by
  intro h
  have h2 : decoded_timestamp (decode_packet "2024-01-01T00:00:00Z" sample_packet_bytes) =
      decoded_timestamp (decode_packet "2024-01-01T00:00:01Z" sample_packet_bytes) :=
    congrArg decoded_timestamp h
  rw [show decoded_timestamp (decode_packet "2024-01-01T00:00:00Z" sample_packet_bytes) =
      some "2024-01-01T00:00:00Z" from rfl,
    show decoded_timestamp (decode_packet "2024-01-01T00:00:01Z" sample_packet_bytes) =
      some "2024-01-01T00:00:01Z" from rfl] at h2
  exact absurd (Option.some.inj h2) (by decide)

/-- C2 (amended): the packet decoder is deterministic and depends on nothing
outside its input bytes except for the snapshot timestamp field, which
records the decode time: for every byte buffer and any two clock readings,
the decoded results agree once the timestamp is erased (both none, the
same version string, or the same snapshot fields). -/
theorem claim_C2_decoder_pure_mod_timestamp (t1 t2 : String) (raw : List Nat) :
    erase_timestamp (decode_packet t1 raw) = erase_timestamp (decode_packet t2 raw) := by
  have parse_pure : ∀ input : List Char,
      erase_timestamp (parse_ups_string t1 input) = erase_timestamp (parse_ups_string t2 input) := by
    intro input
    unfold parse_ups_string
    dsimp only
    split
    · split
      · rfl
      · rfl
    · split
      · rfl
      · rfl
  unfold decode_packet
  split
  · rfl
  · exact parse_pure _

/-- C4: from any state with wasOnBattery set, a snapshot with utilityFail
false clears the battery-duration timer and both battery latches, logs the
Normal-AC event, cancels any pending scheduled shutdown (deadline and
reason), and increments the sound generation token by one. -/
theorem claim_C4_ac_cleared (env : Env) (settings : AppSettings)
    (st : MonitorState) (status : UpsData)
    (hmon : settings.monitor_only_mode = false)
    (hwas : st.is_on_battery = true)
    (hfail : status.status.utility_fail = false) :
    (handle_status_packet env settings st status).1.battery_start_ms = none ∧
    (handle_status_packet env settings st status).1.was_battery_low = false ∧
    (handle_status_packet env settings st status).1.was_battery_critical = false ∧
    (handle_status_packet env settings st status).1.scheduled_shutdown_at_ms = none ∧
    (handle_status_packet env settings st status).1.scheduled_shutdown_reason = none ∧
    (handle_status_packet env settings st status).1.sound_generation = st.sound_generation + 1 ∧
    Output.logEvent "General Event" "Normal AC value" "Normal AC value"
      ∈ (handle_status_packet env settings st status).2 := by
  simp [handle_status_packet, log_event, cancel_scheduled_shutdown,
    process_pending_shutdown, hmon, hwas, hfail]

/-- Status flags of a healthy frame (utility power present). -/
def sample_flags_ok : UpsStatusFlags where
  raw := "00000000"
  utility_fail := false
  battery_low := false
  bypass_active := false
  ups_failed := false
  ups_is_standby := false
  test_in_progress := false
  shutdown_active := false
  beeper_on := false

/-- Status flags of an on-battery frame (utility fail bit set). -/
def sample_flags_fail : UpsStatusFlags :=
  { sample_flags_ok with raw := "10000001", utility_fail := true, beeper_on := true }

/-- A healthy decoded snapshot used by witnesses. -/
def sample_status_ok : UpsData where
  r_type := "STATUS"
  input_voltage := 220
  fault_voltage := 140
  output_voltage := 220
  load_percent := 32
  frequency := 50
  battery_voltage := 26
  temperature := 25
  battery_percent := 86
  estimated_runtime := 40
  timestamp := "1970-01-01T00:00:00Z"
  status := sample_flags_ok

/-- An on-battery decoded snapshot used by witnesses. -/
def sample_status_fail : UpsData :=
  { sample_status_ok with status := sample_flags_fail }

/-- An on-battery monitor state with a pending shutdown, used by witnesses. -/
def sample_on_battery_state : MonitorState :=
  { initial_state with
    is_on_battery := true
    battery_start_ms := some 5
    was_battery_low := true
    scheduled_shutdown_at_ms := some 120000
    scheduled_shutdown_reason := some "ac-fault" }

theorem claim_C4_ac_cleared_witness :
    default_settings.monitor_only_mode = false ∧
    sample_on_battery_state.is_on_battery = true ∧
    sample_status_ok.status.utility_fail = false ∧
    (handle_status_packet sample_env default_settings sample_on_battery_state
      sample_status_ok).1.scheduled_shutdown_at_ms = none ∧
    (handle_status_packet sample_env default_settings sample_on_battery_state
      sample_status_ok).1.sound_generation = sample_on_battery_state.sound_generation + 1 ∧
    Output.logEvent "General Event" "Normal AC value" "Normal AC value"
      ∈ (handle_status_packet sample_env default_settings sample_on_battery_state
        sample_status_ok).2 := by
  have h := claim_C4_ac_cleared sample_env default_settings sample_on_battery_state
    sample_status_ok rfl rfl rfl
  exact ⟨rfl, rfl, rfl, h.2.2.2.1, h.2.2.2.2.2.1, h.2.2.2.2.2.2⟩


section FrameLemmas

variable (env : Env) (settings : AppSettings) (st : MonitorState)

@[simp] lemma sfp_snd_scheduled_at :
    (should_force_popup env st).2.scheduled_shutdown_at_ms = st.scheduled_shutdown_at_ms := by
  unfold should_force_popup
  split_ifs <;> rfl

@[simp] lemma sfp_snd_scheduled_reason :
    (should_force_popup env st).2.scheduled_shutdown_reason = st.scheduled_shutdown_reason := by
  unfold should_force_popup
  split_ifs <;> rfl

@[simp] lemma sfp_snd_last_error :
    (should_force_popup env st).2.last_error = st.last_error := by
  unfold should_force_popup
  split_ifs <;> rfl

@[simp] lemma sfp_snd_sound_generation :
    (should_force_popup env st).2.sound_generation = st.sound_generation := by
  unfold should_force_popup
  split_ifs <;> rfl

@[simp] lemma sfp_snd_is_on_battery :
    (should_force_popup env st).2.is_on_battery = st.is_on_battery := by
  unfold should_force_popup
  split_ifs <;> rfl

@[simp] lemma log_event_st_scheduled_at (c n r : String) :
    (log_event env settings st c n r).st.scheduled_shutdown_at_ms =
      st.scheduled_shutdown_at_ms := by
  unfold log_event
  split <;> rfl

@[simp] lemma log_event_st_scheduled_reason (c n r : String) :
    (log_event env settings st c n r).st.scheduled_shutdown_reason =
      st.scheduled_shutdown_reason := by
  unfold log_event
  split <;> rfl

@[simp] lemma log_event_st_last_error (c n r : String) :
    (log_event env settings st c n r).st.last_error = st.last_error := by
  unfold log_event
  split <;> rfl

@[simp] lemma log_event_st_sound_generation (c n r : String) :
    (log_event env settings st c n r).st.sound_generation = st.sound_generation := by
  unfold log_event
  split <;> rfl

@[simp] lemma log_event_st_is_on_battery (c n r : String) :
    (log_event env settings st c n r).st.is_on_battery = st.is_on_battery := by
  unfold log_event
  split <;> rfl

lemma log_event_out_of_not_monitor (c n r : String)
    (h : settings.monitor_only_mode = false) :
    (log_event env settings st c n r).out = [.logEvent c n r] := by
  unfold log_event
  rw [if_neg (by simp [h])]

@[simp] lemma emit_error_once_st_scheduled_at (m : String) :
    (emit_error_once st m).st.scheduled_shutdown_at_ms = st.scheduled_shutdown_at_ms := by
  unfold emit_error_once
  split <;> rfl

@[simp] lemma emit_error_once_st_scheduled_reason (m : String) :
    (emit_error_once st m).st.scheduled_shutdown_reason = st.scheduled_shutdown_reason := by
  unfold emit_error_once
  split <;> rfl

@[simp] lemma cancel_false_out :
    (cancel_scheduled_shutdown st false).out = [] := by
  simp [cancel_scheduled_shutdown]

@[simp] lemma cancel_st_scheduled_at (e : Bool) :
    (cancel_scheduled_shutdown st e).st.scheduled_shutdown_at_ms = none := rfl

@[simp] lemma cancel_st_scheduled_reason (e : Bool) :
    (cancel_scheduled_shutdown st e).st.scheduled_shutdown_reason = none := rfl

@[simp] lemma cancel_st_last_error (e : Bool) :
    (cancel_scheduled_shutdown st e).st.last_error = st.last_error := rfl

@[simp] lemma cancel_st_is_on_battery (e : Bool) :
    (cancel_scheduled_shutdown st e).st.is_on_battery = st.is_on_battery := rfl

@[simp] lemma cancel_st_sound_generation (e : Bool) :
    (cancel_scheduled_shutdown st e).st.sound_generation = st.sound_generation := rfl

@[simp] lemma cancel_st_was_battery_low (e : Bool) :
    (cancel_scheduled_shutdown st e).st.was_battery_low = st.was_battery_low := rfl

@[simp] lemma cancel_st_was_battery_critical (e : Bool) :
    (cancel_scheduled_shutdown st e).st.was_battery_critical = st.was_battery_critical := rfl

@[simp] lemma cancel_st_battery_start_ms (e : Bool) :
    (cancel_scheduled_shutdown st e).st.battery_start_ms = st.battery_start_ms := rfl

end FrameLemmas

/-- Recognizer for system-command attempts in a trace. -/
def is_system_action : Output → Bool
  | .systemAction _ => true
  | _ => false

/-- Recognizer for reported errors in a trace. -/
def is_error_output : Output → Bool
  | .emitError _ => true
  | _ => false

lemma process_due_st_scheduled_cleared (env : Env) (settings : AppSettings)
    (st : MonitorState) :
    (process_due_shutdown env settings st).st.scheduled_shutdown_at_ms = none ∧
    (process_due_shutdown env settings st).st.scheduled_shutdown_reason = none := by
  unfold process_due_shutdown
  rcases hc : env.shutdown_command_error with _ | m <;>
    simp [hc, cancel_scheduled_shutdown]

lemma process_pending_out_of_none (env : Env) (settings : AppSettings)
    (st : MonitorState) (h : st.scheduled_shutdown_at_ms = none) :
    process_pending_shutdown env settings st = ⟨st, [], false⟩ := by
  unfold process_pending_shutdown
  split
  · rfl
  · simp [h]

lemma countP_ite (p : Output → Bool) (c : Prop) [Decidable c] (l1 l2 : List Output) :
    List.countP p (if c then l1 else l2) = if c then List.countP p l1 else List.countP p l2 :=
  apply_ite _ _ _ _

@[simp] lemma act_out_ite (c : Prop) [Decidable c] (a b : Act) :
    (if c then a else b).out = if c then a.out else b.out :=
  apply_ite _ _ _ _

@[simp] lemma act_st_ite (c : Prop) [Decidable c] (a b : Act) :
    (if c then a else b).st = if c then a.st else b.st :=
  apply_ite _ _ _ _

@[simp] lemma prod_fst_ite {α β : Type} (c : Prop) [Decidable c] (a b : α × β) :
    (if c then a else b).1 = if c then a.1 else b.1 :=
  apply_ite _ _ _ _

@[simp] lemma prod_snd_ite {α β : Type} (c : Prop) [Decidable c] (a b : α × β) :
    (if c then a else b).2 = if c then a.2 else b.2 :=
  apply_ite _ _ _ _

/-- C8: when the pending deadline is due, one scheduler tick clears the
deadline and reason unconditionally (the clearing does not depend on the
outcome of the system command, which the env supplies), attempts exactly
one system action, reports a spawn failure deduplicated against the last
reported error message, and never retries: a second tick from the
resulting state does nothing. -/
theorem claim_C8_fire_clears_and_no_retry (env : Env) (settings : AppSettings)
    (st : MonitorState) (ts : Nat)
    (hmon : settings.monitor_only_mode = false)
    (hdl : st.scheduled_shutdown_at_ms = some ts)
    (hdue : ts ≤ env.now_ms) :
    (process_pending_shutdown env settings st).st.scheduled_shutdown_at_ms = none ∧
    (process_pending_shutdown env settings st).st.scheduled_shutdown_reason = none ∧
    List.countP is_system_action (process_pending_shutdown env settings st).out = 1 ∧
    (∀ msg : String, env.shutdown_command_error = some msg →
      (st.last_error = some msg →
        List.countP is_error_output (process_pending_shutdown env settings st).out = 0) ∧
      (st.last_error ≠ some msg →
        Output.emitError msg ∈ (process_pending_shutdown env settings st).out ∧
        (process_pending_shutdown env settings st).st.last_error = some msg)) ∧
    (∀ env2 : Env, process_pending_shutdown env2 settings
      (process_pending_shutdown env settings st).st =
        ⟨(process_pending_shutdown env settings st).st, [], false⟩) := by
  have hpp : process_pending_shutdown env settings st = process_due_shutdown env settings st := by
    unfold process_pending_shutdown
    rw [if_neg (by simp [hmon])]
    simp [hdl, hdue]
  have hcleared := process_due_st_scheduled_cleared env settings st
  refine ⟨hpp ▸ hcleared.1, hpp ▸ hcleared.2, ?_, ?_, ?_⟩
  · rw [hpp]
    unfold process_due_shutdown
    rcases hc : env.shutdown_command_error with _ | m <;>
      simp [hc, emit_error_once, log_event_out_of_not_monitor, hmon,
        List.countP_append, countP_ite, is_system_action]
  · intro msg hmsg
    rcases hc : env.shutdown_command_error with _ | m
    · rw [hc] at hmsg
      exact absurd hmsg (by simp)
    · rw [hc] at hmsg
      have hm : m = msg := Option.some.inj hmsg
      subst hm
      rw [hpp]
      constructor
      · intro hlast
        unfold process_due_shutdown
        simp [hc, emit_error_once, log_event_out_of_not_monitor, hmon, hlast,
          List.countP_append, countP_ite, is_error_output]
      · intro hlast
        unfold process_due_shutdown
        simp [hc, emit_error_once, log_event_out_of_not_monitor, hmon, hlast,
          List.countP_append, countP_ite, is_error_output]
  · intro env2
    exact process_pending_out_of_none env2 settings _ (hpp ▸ hcleared.1)

/-- A due tick whose system-command spawn fails, used by witnesses. -/
def sample_env_due : Env where
  now_ms := 60000
  now_iso := "1970-01-01T00:01:00Z"
  main_window_visible_focused := false
  shutdown_command_error := some "No se pudo ejecutar apagado: acceso denegado"

theorem claim_C8_fire_clears_and_no_retry_witness :
    default_settings.monitor_only_mode = false ∧
    sample_scheduled_state.scheduled_shutdown_at_ms = some 60000 ∧
    60000 ≤ sample_env_due.now_ms ∧
    (process_pending_shutdown sample_env_due default_settings
      sample_scheduled_state).st.scheduled_shutdown_at_ms = none ∧
    List.countP is_system_action (process_pending_shutdown sample_env_due default_settings
      sample_scheduled_state).out = 1 ∧
    (∀ env2 : Env, process_pending_shutdown env2 default_settings
      (process_pending_shutdown sample_env_due default_settings sample_scheduled_state).st =
        ⟨(process_pending_shutdown sample_env_due default_settings
          sample_scheduled_state).st, [], false⟩) := by
  have h := claim_C8_fire_clears_and_no_retry sample_env_due default_settings
    sample_scheduled_state 60000 rfl rfl (by decide)
  exact ⟨rfl, rfl, by decide, h.1, h.2.2.1, h.2.2.2.2⟩

/-- Recognizer for the logged AC Fault event in a trace. -/
def is_ac_fault_log : Output → Bool
  | .logEvent _ n _ => n == "AC Fault"
  | _ => false

/-- Recognizer for the AC-fault alert dispatch in a trace. -/
def is_ac_fault_dispatch : Output → Bool
  | .alertTransition .AcFault => true
  | _ => false

section PredicateEval

variable (c n r t m a : String) (k j : Nat) (cmd : SystemCmd)

@[simp] lemma acl_log_ac_fault : is_ac_fault_log (.logEvent c "AC Fault" r) = true := rfl
@[simp] lemma acl_log_normal : is_ac_fault_log (.logEvent c "Normal AC value" r) = false := rfl
@[simp] lemma acl_log_low : is_ac_fault_log (.logEvent c "Battery Low" r) = false := rfl
@[simp] lemma acl_log_crit : is_ac_fault_log (.logEvent c "Battery Critical" r) = false := rfl
@[simp] lemma acl_log_exec : is_ac_fault_log (.logEvent c "Shutdown execution" r) = false := rfl
@[simp] lemma acl_notify : is_ac_fault_log (.notify t m) = false := rfl
@[simp] lemma acl_urgent : is_ac_fault_log (.urgentAlert t m a) = false := rfl
@[simp] lemma acl_popup : is_ac_fault_log (.forcedPopup t m a) = false := rfl
@[simp] lemma acl_sound : is_ac_fault_log (.soundStart k j) = false := rfl
@[simp] lemma acl_sched : is_ac_fault_log (.shutdownScheduled k) = false := rfl
@[simp] lemma acl_cancel : is_ac_fault_log .shutdownCancelled = false := rfl
@[simp] lemma acl_upsdata : is_ac_fault_log .upsData = false := rfl
@[simp] lemma acl_err : is_ac_fault_log (.emitError m) = false := rfl
@[simp] lemma acl_sys : is_ac_fault_log (.systemAction cmd) = false := rfl
@[simp] lemma acl_alert (kd : AlertKind) : is_ac_fault_log (.alertTransition kd) = false := rfl

@[simp] lemma acd_log : is_ac_fault_dispatch (.logEvent c n r) = false := rfl
@[simp] lemma acd_notify : is_ac_fault_dispatch (.notify t m) = false := rfl
@[simp] lemma acd_urgent : is_ac_fault_dispatch (.urgentAlert t m a) = false := rfl
@[simp] lemma acd_popup : is_ac_fault_dispatch (.forcedPopup t m a) = false := rfl
@[simp] lemma acd_sound : is_ac_fault_dispatch (.soundStart k j) = false := rfl
@[simp] lemma acd_sched : is_ac_fault_dispatch (.shutdownScheduled k) = false := rfl
@[simp] lemma acd_cancel : is_ac_fault_dispatch .shutdownCancelled = false := rfl
@[simp] lemma acd_upsdata : is_ac_fault_dispatch .upsData = false := rfl
@[simp] lemma acd_err : is_ac_fault_dispatch (.emitError m) = false := rfl
@[simp] lemma acd_sys : is_ac_fault_dispatch (.systemAction cmd) = false := rfl
@[simp] lemma acd_ac : is_ac_fault_dispatch (.alertTransition .AcFault) = true := rfl
@[simp] lemma acd_low : is_ac_fault_dispatch (.alertTransition .BatteryLow) = false := rfl
@[simp] lemma acd_crit : is_ac_fault_dispatch (.alertTransition .BatteryCritical) = false := rfl

end PredicateEval

lemma schedule_count_log (env : Env) (st : MonitorState) (d : Nat) (r : String) :
    List.countP is_ac_fault_log (schedule_shutdown_after_minutes env st d r).out = 0 := by
  simp only [schedule_shutdown_after_minutes]
  split <;> simp

lemma schedule_count_dispatch (env : Env) (st : MonitorState) (d : Nat) (r : String) :
    List.countP is_ac_fault_dispatch (schedule_shutdown_after_minutes env st d r).out = 0 := by
  simp only [schedule_shutdown_after_minutes]
  split <;> simp

set_option maxRecDepth 4000 in
lemma hat_count_log (env : Env) (settings : AppSettings) (st : MonitorState)
    (kind : AlertKind) (status : UpsData) :
    List.countP is_ac_fault_log (handle_alert_transition env settings st kind status).out = 0 := by
  rcases kind <;>
    simp [handle_alert_transition, play_sound_with_generation, List.countP_append,
      countP_ite, act_out_ite, schedule_count_log, -List.countP_eq_zero]

set_option maxRecDepth 4000 in
lemma hat_count_dispatch (env : Env) (settings : AppSettings) (st : MonitorState)
    (kind : AlertKind) (status : UpsData) :
    List.countP is_ac_fault_dispatch (handle_alert_transition env settings st kind status).out = 0 := by
  rcases kind <;>
    simp [handle_alert_transition, play_sound_with_generation, List.countP_append,
      countP_ite, act_out_ite, schedule_count_dispatch, -List.countP_eq_zero]

lemma pp_count_log (env : Env) (settings : AppSettings) (st : MonitorState) :
    List.countP is_ac_fault_log (process_pending_shutdown env settings st).out = 0 := by
  unfold process_pending_shutdown
  split
  · simp
  · split
    · unfold process_due_shutdown
      rcases hc : env.shutdown_command_error with _ | m <;>
        simp [hc, emit_error_once, log_event, List.countP_append, countP_ite, act_out_ite]
    · simp

lemma pp_count_dispatch (env : Env) (settings : AppSettings) (st : MonitorState) :
    List.countP is_ac_fault_dispatch (process_pending_shutdown env settings st).out = 0 := by
  unfold process_pending_shutdown
  split
  · simp
  · split
    · unfold process_due_shutdown
      rcases hc : env.shutdown_command_error with _ | m <;>
        simp [hc, emit_error_once, log_event, List.countP_append, countP_ite, act_out_ite]
    · simp

lemma hsp_fst_is_on_battery (env : Env) (settings : AppSettings)
    (st : MonitorState) (status : UpsData) :
    (handle_status_packet env settings st status).1.is_on_battery =
      status.status.utility_fail := rfl

set_option maxRecDepth 8000 in
lemma hsp_count_first (env : Env) (settings : AppSettings) (st : MonitorState)
    (status : UpsData)
    (hmon : settings.monitor_only_mode = false)
    (hfail : status.status.utility_fail = true)
    (hwas : st.is_on_battery = false) :
    List.countP is_ac_fault_log (handle_status_packet env settings st status).2 = 1 ∧
    List.countP is_ac_fault_dispatch (handle_status_packet env settings st status).2 = 1 := by
  constructor <;>
    simp [handle_status_packet, hmon, hfail, hwas, List.countP_append, countP_ite,
      act_out_ite, log_event_out_of_not_monitor, hat_count_log, hat_count_dispatch,
      pp_count_log, pp_count_dispatch, -List.countP_eq_zero]

set_option maxRecDepth 8000 in
lemma hsp_count_rest (env : Env) (settings : AppSettings) (st : MonitorState)
    (status : UpsData)
    (hmon : settings.monitor_only_mode = false)
    (hfail : status.status.utility_fail = true)
    (hwas : st.is_on_battery = true) :
    List.countP is_ac_fault_log (handle_status_packet env settings st status).2 = 0 ∧
    List.countP is_ac_fault_dispatch (handle_status_packet env settings st status).2 = 0 := by
  constructor <;>
    simp [handle_status_packet, hmon, hfail, hwas, List.countP_append, countP_ite,
      act_out_ite, log_event_out_of_not_monitor, hat_count_log, hat_count_dispatch,
      pp_count_log, pp_count_dispatch, -List.countP_eq_zero]

/-- C3: the AC-fault latch fires on the edge only: processing any non-empty
stream of consecutive snapshots with utilityFail set, starting from a
not-on-battery state with monitor-only off, logs the AC Fault event exactly
once and dispatches the AC-fault alert exactly once, regardless of the
stream length. -/
theorem claim_C3_ac_fault_latch (settings : AppSettings) (st0 : MonitorState)
    (steps : List (Env × UpsData))
    (hmon : settings.monitor_only_mode = false)
    (hwas : st0.is_on_battery = false)
    (hne : steps ≠ [])
    (hfail : ∀ p ∈ steps, p.2.status.utility_fail = true) :
    List.countP is_ac_fault_log (run_status_packets settings steps st0).2 = 1 ∧
    List.countP is_ac_fault_dispatch (run_status_packets settings steps st0).2 = 1 := by
  have rest_zero : ∀ (steps' : List (Env × UpsData)) (st : MonitorState),
      st.is_on_battery = true → (∀ p ∈ steps', p.2.status.utility_fail = true) →
      List.countP is_ac_fault_log (run_status_packets settings steps' st).2 = 0 ∧
      List.countP is_ac_fault_dispatch (run_status_packets settings steps' st).2 = 0 := by
    intro steps'
    induction steps' with
    | nil =>
      intro st _ _
      simp [run_status_packets]
    | cons p rest ih =>
      intro st h1 h2
      have hf := h2 p (List.mem_cons_self p rest)
      have hz := hsp_count_rest p.1 settings st p.2 hmon hf h1
      have hb : (handle_status_packet p.1 settings st p.2).1.is_on_battery = true := by
        rw [hsp_fst_is_on_battery, hf]
      have ihr := ih _ hb (fun q hq => h2 q (List.mem_cons_of_mem _ hq))
      constructor <;>
        simp [run_status_packets, List.countP_append, hz.1, hz.2, ihr.1, ihr.2,
          -List.countP_eq_zero]
  rcases steps with _ | ⟨p, rest⟩
  · exact absurd rfl hne
  · have hf := hfail p (List.mem_cons_self p rest)
    have h1 := hsp_count_first p.1 settings st0 p.2 hmon hf hwas
    have hb : (handle_status_packet p.1 settings st0 p.2).1.is_on_battery = true := by
      rw [hsp_fst_is_on_battery, hf]
    have hz := rest_zero rest _ hb (fun q hq => hfail q (List.mem_cons_of_mem _ hq))
    constructor <;>
      simp [run_status_packets, List.countP_append, h1.1, h1.2, hz.1, hz.2,
        -List.countP_eq_zero]

/-- Two consecutive on-battery polls, used by the C3 witness. -/
def sample_fail_steps : List (Env × UpsData) :=
  [(sample_env, sample_status_fail), (sample_env, sample_status_fail)]

theorem claim_C3_ac_fault_latch_witness :
    default_settings.monitor_only_mode = false ∧
    initial_state.is_on_battery = false ∧
    sample_fail_steps ≠ [] ∧
    (∀ p ∈ sample_fail_steps, p.2.status.utility_fail = true) ∧
    List.countP is_ac_fault_log
      (run_status_packets default_settings sample_fail_steps initial_state).2 = 1 ∧
    List.countP is_ac_fault_dispatch
      (run_status_packets default_settings sample_fail_steps initial_state).2 = 1 := by
  have hne : sample_fail_steps ≠ [] := List.cons_ne_nil _ _
  have hfail : ∀ p ∈ sample_fail_steps, p.2.status.utility_fail = true := by decide
  have h := claim_C3_ac_fault_latch default_settings initial_state sample_fail_steps
    rfl rfl hne hfail
  exact ⟨rfl, rfl, hne, hfail, h.1, h.2⟩
